import Mathlib

/-!
Verification of the telemetry collector (`src/telemetry_collector.py`) of the
`tsviz/actions-runner-telemetry` repository.

The Python source is shallowly embedded below.  Conventions:

* Python floats (timestamps, rates, percentages) are modelled as `ℚ`;
  Python ints as `ℤ` (or `ℕ` for list lengths).
* `round(x, 2)` is modelled by `pyRound2`, `round(x)` by `pyRound0`
  (rounding to nearest; the half-to-even tie behaviour of Python floats is
  irrelevant to every statement proved here, which only evaluates rounding at
  exact or tie-free points).
* Python dicts returned by metric readers are modelled as association lists
  `List (String × JVal)` so that the set and order of keys — which varies
  between the success path and the exception path of a reader — is preserved.
* A Python dict key that may be absent (`'end_time' not in step`,
  `'steps' not in data`) is modelled as an `Option` field.
* The `*_datetime` string fields (`datetime.now().isoformat()`) are pure
  presentation duplicates of the numeric timestamps and are omitted.
* The ambient OS state read by the metric readers during one tick is passed
  to the embedded functions as an explicit `Readings` argument; file-system
  effects (saves, sleeps) are recorded as explicit event lists.
-/

/-- Python `round(q, 2)`: round to the nearest multiple of 1/100. -/
def pyRound2 (q : ℚ) : ℚ := ((round (q * 100) : ℤ) : ℚ) / 100

/-- Python `round(q)`: round to the nearest integer. -/
def pyRound0 (q : ℚ) : ℤ := round q

/-- A scalar JSON value appearing in a metric-reader dict. -/
inductive JVal
  | jnum (q : ℚ)
  | jstr (s : String)
deriving DecidableEq, Repr

/-- A metric-reader result dict: keys in insertion order, scalar values. -/
abbrev RDict := List (String × JVal)

/-! ### Metric readers cited by the claims

`_linux_get_load_average` (src lines 477-489): parses `/proc/loadavg`.
The `src` argument models the parsed fields of a successful read of
`/proc/loadavg`; `none` models the exception path (missing file, parse
error). -/

/-- Embedding of `_linux_get_load_average`.  On success the dict has the four
keys `load_1m`, `load_5m`, `load_15m`, `running_procs`; the `except` branch
returns only the first three, zero valued. -/
def linux_get_load_average (src : Option (ℚ × ℚ × ℚ × String)) : RDict :=
  match src with
  | some (l1, l5, l15, rp) =>
      [("load_1m", .jnum l1), ("load_5m", .jnum l5), ("load_15m", .jnum l15),
       ("running_procs", .jstr rp)]
  | none =>
      [("load_1m", .jnum 0), ("load_5m", .jnum 0), ("load_15m", .jnum 0)]

/-- Parsed inputs of `_macos_get_memory_info`: `hw.memsize` and the `vm_stat`
page counts (src lines 80-126). -/
structure VmStatInput where
  total_bytes : ℤ
  page_size : ℤ
  pages_free : ℤ
  pages_inactive : ℤ
  pages_speculative : ℤ
deriving DecidableEq, Repr

/-- Embedding of `_macos_get_memory_info`.  Python `//` is floor division,
modelled by `Int.fdiv`.  The success dict has six keys including
`buffers_mb` and `cached_mb`; the `except` branch returns only four. -/
def macos_get_memory_info (src : Option VmStatInput) : RDict :=
  match src with
  | some v =>
      let total_mb := Int.fdiv v.total_bytes (1024 * 1024)
      let available_pages := v.pages_free + v.pages_inactive + v.pages_speculative
      let available_mb := Int.fdiv (available_pages * v.page_size) (1024 * 1024)
      let used_mb := total_mb - available_mb
      [("total_mb", .jnum total_mb), ("used_mb", .jnum used_mb),
       ("available_mb", .jnum available_mb), ("buffers_mb", .jnum 0),
       ("cached_mb", .jnum 0),
       ("percent", .jnum (if 0 < total_mb
          then pyRound2 (((used_mb : ℚ) / (total_mb : ℚ)) * 100) else 0))]
  | none =>
      [("total_mb", .jnum 0), ("used_mb", .jnum 0), ("available_mb", .jnum 0),
       ("percent", .jnum 0)]

/-! ### The sample assembler (`collect_sample`, src lines 873-988) -/

/-- Result of `get_cpu_detailed()`: the `/proc/stat` time-in-state counters. -/
structure CpuDetailed where
  user : ℤ
  nice : ℤ
  system : ℤ
  idle : ℤ
  iowait : ℤ
  irq : ℤ
  softirq : ℤ
  steal : ℤ
  total : ℤ
deriving DecidableEq, Repr

/-- Result of `get_disk_io()`: cumulative byte counters. -/
structure DiskCounters where
  read_bytes : ℤ
  write_bytes : ℤ
deriving DecidableEq, Repr

/-- Result of `get_network_io()`: cumulative byte counters. -/
structure NetCounters where
  rx_bytes : ℤ
  tx_bytes : ℤ
deriving DecidableEq, Repr

/-- All reader outputs consumed by one `collect_sample` call, together with
the `time.time()` value taken at the top of the call.  `cpu` is the pair
returned by `get_cpu_usage()`: on Linux `(idle, total)` cumulative counters,
on macOS/Windows `(percent, -1)` where the `-1` sentinel signals direct
percentage mode.  (The source calls `get_cpu_usage()` twice, at lines 878 and
881, discarding the first result; the embedding keeps the used reading.) -/
structure Readings where
  timestamp : ℚ
  cpu : ℚ × ℚ
  cpuDetailed : CpuDetailed
  ctxt : ℤ
  memory : RDict
  swap : RDict
  disk_space : RDict
  load : RDict
  file_descriptors : RDict
  tcp_connections : RDict
  disk : DiskCounters
  net : NetCounters
  process_count : ℤ
  thread_count : ℤ
deriving DecidableEq, Repr

/-- One assembled sample.  The nested `disk_io` / `network_io` dicts of the
source (which hold the raw cumulative counters next to the computed rates)
are flattened into `disk_read_bytes` / `disk_read_rate` etc. -/
structure Sample where
  timestamp : ℚ
  cpu_percent : ℚ
  cpu_iowait_percent : ℚ
  cpu_steal_percent : ℚ
  context_switches_rate : ℤ
  memory : RDict
  swap : RDict
  disk_read_bytes : ℤ
  disk_write_bytes : ℤ
  disk_read_rate : ℚ
  disk_write_rate : ℚ
  disk_space : RDict
  net_rx_bytes : ℤ
  net_tx_bytes : ℤ
  net_rx_rate : ℚ
  net_tx_rate : ℚ
  load : RDict
  process_count : ℤ
  thread_count : ℤ
  file_descriptors : RDict
  tcp_connections : RDict
deriving DecidableEq, Repr

/-- The previous-tick raw counters threaded through the collection loop
(`prev_cpu`, `prev_cpu_detailed`, `prev_disk`, `prev_net`, `prev_ctxt`).
`none` models Python `None`; the disk/net/ctxt entries carry the timestamp
stored next to them in the source. -/
structure CollectPrev where
  prev_cpu : Option (ℚ × ℚ)
  prev_cpu_detailed : Option CpuDetailed
  prev_disk : Option (DiskCounters × ℚ)
  prev_net : Option (NetCounters × ℚ)
  prev_ctxt : Option (ℤ × ℚ)
deriving DecidableEq, Repr

/-- The initial loop state: all previous raw counters absent. -/
def initPrev : CollectPrev := ⟨none, none, none, none, none⟩

/-- Embedding of `collect_sample` (src lines 873-988).  Returns the assembled
sample together with the new previous-raw-counter state.  Mirrors the source
branch for branch: the `-1` sentinel selects direct-percentage CPU mode; a
`total_delta > 0` / `time_delta > 0` guard precedes each delta division; in
every other case the corresponding rate keeps its initial value 0. -/
def collect_sample (prev : CollectPrev) (r : Readings) : Sample × CollectPrev :=
  let timestamp := r.timestamp
  let cpu_val1 := r.cpu.1
  let cpu_val2 := r.cpu.2
  let cpuRes : ℚ × (ℚ × ℚ) :=
    if cpu_val2 = -1 then
      (pyRound2 cpu_val1, (cpu_val1, cpu_val2))
    else
      let pct : ℚ :=
        match prev.prev_cpu with
        | some (pidle, ptotal) =>
            if ptotal = -1 then 0
            else
              let idle_delta := cpu_val1 - pidle
              let total_delta := cpu_val2 - ptotal
              if 0 < total_delta then
                pyRound2 (100 * (1 - idle_delta / total_delta))
              else 0
        | none => 0
      (pct, (cpu_val1, cpu_val2))
  let detRes : ℚ × ℚ :=
    match prev.prev_cpu_detailed with
    | some p =>
        let total_delta := r.cpuDetailed.total - p.total
        if 0 < total_delta then
          (pyRound2 (100 * ((r.cpuDetailed.iowait - p.iowait : ℤ) : ℚ) / (total_delta : ℚ)),
           pyRound2 (100 * ((r.cpuDetailed.steal - p.steal : ℤ) : ℚ) / (total_delta : ℚ)))
        else (0, 0)
    | none => (0, 0)
  let ctxt_rate : ℤ :=
    match prev.prev_ctxt with
    | some (pcount, pts) =>
        let time_delta := timestamp - pts
        if 0 < time_delta then pyRound0 (((r.ctxt - pcount : ℤ) : ℚ) / time_delta)
        else 0
    | none => 0
  let diskRates : ℚ × ℚ :=
    match prev.prev_disk with
    | some (pd, pts) =>
        let time_delta := timestamp - pts
        if 0 < time_delta then
          (((r.disk.read_bytes - pd.read_bytes : ℤ) : ℚ) / time_delta,
           ((r.disk.write_bytes - pd.write_bytes : ℤ) : ℚ) / time_delta)
        else (0, 0)
    | none => (0, 0)
  let netRates : ℚ × ℚ :=
    match prev.prev_net with
    | some (pn, pts) =>
        let time_delta := timestamp - pts
        if 0 < time_delta then
          (((r.net.rx_bytes - pn.rx_bytes : ℤ) : ℚ) / time_delta,
           ((r.net.tx_bytes - pn.tx_bytes : ℤ) : ℚ) / time_delta)
        else (0, 0)
    | none => (0, 0)
  ({ timestamp := timestamp
     cpu_percent := cpuRes.1
     cpu_iowait_percent := detRes.1
     cpu_steal_percent := detRes.2
     context_switches_rate := ctxt_rate
     memory := r.memory
     swap := r.swap
     disk_read_bytes := r.disk.read_bytes
     disk_write_bytes := r.disk.write_bytes
     disk_read_rate := diskRates.1
     disk_write_rate := diskRates.2
     disk_space := r.disk_space
     net_rx_bytes := r.net.rx_bytes
     net_tx_bytes := r.net.tx_bytes
     net_rx_rate := netRates.1
     net_tx_rate := netRates.2
     load := r.load
     process_count := r.process_count
     thread_count := r.thread_count
     file_descriptors := r.file_descriptors
     tcp_connections := r.tcp_connections },
   { prev_cpu := some cpuRes.2
     prev_cpu_detailed := some r.cpuDetailed
     prev_disk := some (r.disk, timestamp)
     prev_net := some (r.net, timestamp)
     prev_ctxt := some (r.ctxt, timestamp) })

/-! ### The persisted document and the step tracker -/

/-- One entry of the `steps` list.  `end_time`, `duration` and
`sample_end_idx` are keys only added when the step is closed, hence
`Option`; `sample_end_idx` is `len(samples) - 1`, which can be `-1`, hence
`ℤ`. -/
structure Step where
  name : String
  start_time : ℚ
  end_time : Option ℚ
  duration : Option ℚ
  sample_start_idx : ℕ
  sample_end_idx : Option ℤ
deriving DecidableEq, Repr

/-- One entry of a `get_top_processes` list. -/
structure ProcEntry where
  pid : String
  cpu : ℚ
  mem : ℚ
  command : String
deriving DecidableEq, Repr

/-- Result of `get_top_processes(10)`. -/
structure TopProcesses where
  by_cpu : List ProcEntry
  by_mem : List ProcEntry
deriving DecidableEq, Repr

/-- The `initial_snapshot` dict built by `start_collection`
(src lines 1000-1008). -/
structure StartInitialSnapshot where
  cpu_count : ℕ
  memory : RDict
  swap : RDict
  disk_space : RDict
  file_descriptors : RDict
  tcp_connections : RDict
  processes : TopProcesses
deriving DecidableEq, Repr

/-- The smaller `initial_snapshot` dict built by `snapshot_collection`
(src lines 1196-1200). -/
structure SnapshotInitialSnapshot where
  cpu_count : ℕ
  memory : RDict
  processes : TopProcesses
deriving DecidableEq, Repr

/-- The `initial_snapshot` value stored in the document: the two entry
points build dicts of different shapes. -/
inductive InitialSnapshotVal
  | ofStart (s : StartInitialSnapshot)
  | ofSnapshot (s : SnapshotInitialSnapshot)
deriving DecidableEq, Repr

/-- The `final_snapshot` dict built by `stop_collection` and
`snapshot_collection` (src lines 1095-1098, 1227-1230). -/
structure FinalSnapshot where
  processes : TopProcesses
  memory : RDict
deriving DecidableEq, Repr

/-- The `github_context` dict (values of `os.environ.get(..., 'N/A')`). -/
structure GithubContext where
  repository : String
  workflow : String
  job : String
  run_id : String
  run_number : String
  actor : String
  runner_os : String
  runner_name : String
  repository_visibility : String
deriving DecidableEq, Repr

/-- The persisted JSON document.  Keys that the source only adds later
(`steps`, `end_time`, `duration`, `final_snapshot`, `last_update`) are
`Option` fields, `none` meaning the key is absent. -/
structure Doc where
  start_time : ℚ
  interval : ℚ
  samples : List Sample
  initial_snapshot : Option InitialSnapshotVal
  github_context : Option GithubContext
  steps : Option (List Step)
  end_time : Option ℚ
  duration : Option ℚ
  final_snapshot : Option FinalSnapshot
  last_update : Option ℚ
deriving DecidableEq, Repr

/-! ### Persistence events

Each operation of the source saves the document either in place
(`open(DATA_FILE, 'w')`, which truncates the file and then writes, so a
concurrent reader can observe a partial file) or atomically
(`open(temp_file, 'w')` followed by `os.replace(temp_file, DATA_FILE)`, so a
concurrent reader observes either the old or the new complete document).
Every save the code performs is recorded as a `SaveEvent`. -/

inductive SaveMode
  | inPlace
  | atomic
deriving DecidableEq, Repr

structure SaveEvent where
  mode : SaveMode
  doc : Doc
deriving DecidableEq, Repr

/-- Result of one `json.load` of the data file: a parsed document or a
`JSONDecodeError`/`IOError`. -/
inductive ReadResult
  | ok (d : Doc)
  | parseError
deriving DecidableEq, Repr

/-- Observable outcome of one iteration of the collection loop: the sample
was appended and saved, or the tick was skipped and the read retried on the
next iteration, or an explicit retries-exhausted error was surfaced to the
caller.  The third constructor names the outcome demanded by the spec; the
loop body (src lines 1034-1067) has no code path producing it. -/
inductive TickOutcome
  | saved
  | skippedRetry
  | reportedError
deriving DecidableEq, Repr

/-- Inputs of one iteration of the collection loop: the reader outputs of
the tick and the result of this tick's `json.load` of the data file. -/
structure Tick where
  readings : Readings
  read : ReadResult
deriving DecidableEq, Repr

/-- Embedding of the body of the `while True` loop of `start_collection`
(src lines 1034-1067), iterated over a list of tick inputs.  Each iteration
first runs `collect_sample` (updating the previous-raw-counter state, also
when the subsequent read fails), then loads the data file: on a parse
failure it prints a warning, sleeps 0.1 s and `continue`s — the sample is
dropped and nothing is saved; on success it appends the sample, sets
`last_update` and saves atomically. -/
def loop_go (prev : CollectPrev) : List Tick → List SaveEvent × List TickOutcome
  | [] => ([], [])
  | t :: ts =>
      let res := collect_sample prev t.readings
      match t.read with
      | .parseError =>
          let rest := loop_go res.2 ts
          (rest.1, .skippedRetry :: rest.2)
      | .ok d =>
          let d' := { d with samples := d.samples ++ [res.1],
                             last_update := some t.readings.timestamp }
          let rest := loop_go res.2 ts
          (⟨.atomic, d'⟩ :: rest.1, .saved :: rest.2)

/-- The initial document built by `start_collection` (src lines 994-1020):
metadata, empty `samples`, the captured `initial_snapshot` and
`github_context`.  The dict literal has no `steps`, `end_time`, `duration`,
`final_snapshot` or `last_update` key. -/
def start_initialDoc (now interval : ℚ) (snap : StartInitialSnapshot)
    (ctx : GithubContext) : Doc :=
  { start_time := now
    interval := interval
    samples := []
    initial_snapshot := some (.ofStart snap)
    github_context := some ctx
    steps := none
    end_time := none
    duration := none
    final_snapshot := none
    last_update := none }

/-- The save events performed by `start_collection`: the initial save
(src lines 1022-1024, a plain `open(DATA_FILE, 'w')`, i.e. in place)
followed by the loop's per-tick atomic saves. -/
def start_events (now interval : ℚ) (snap : StartInitialSnapshot)
    (ctx : GithubContext) (ticks : List Tick) : List SaveEvent :=
  ⟨.inPlace, start_initialDoc now interval snap ctx⟩ :: (loop_go initPrev ticks).1

/-- The per-tick outcomes of the collection loop started by
`start_collection`. -/
def loop_outcomes (ticks : List Tick) : List TickOutcome :=
  (loop_go initPrev ticks).2

/-- The `for attempt in range(max_retries)` read loop shared by `mark_step`
and `stop_collection` (src lines 1129-1142 and 1077-1090): try the reads at
indices `i, i+1, ...` until one parses, giving up after `fuel` attempts. -/
def firstOkWithin (reads : ℕ → ReadResult) : ℕ → ℕ → Option Doc
  | _, 0 => none
  | i, Nat.succ k =>
      match reads i with
      | .ok d => some d
      | .parseError => firstOkWithin reads (i + 1) k

/-- Step closing as performed by `mark_step` (src lines 1152-1159): if the
steps list is non-empty and its last entry has no `end_time` key, set
`end_time`, `duration = end_time - start_time` and
`sample_end_idx = len(samples) - 1`. -/
def markStep_closeLast (steps : List Step) (now : ℚ) (nsamples : ℕ) : List Step :=
  match steps.getLast? with
  | none => steps
  | some last =>
      if last.end_time = none then
        steps.dropLast ++
          [{ last with end_time := some now,
                       duration := some (now - last.start_time),
                       sample_end_idx := some ((nsamples : ℤ) - 1) }]
      else steps

/-- Step closing as performed by `stop_collection` (src lines 1101-1106):
sets `end_time` and `duration` only — no `sample_end_idx`. -/
def stop_closeLast (steps : List Step) (now : ℚ) : List Step :=
  match steps.getLast? with
  | none => steps
  | some last =>
      if last.end_time = none then
        steps.dropLast ++
          [{ last with end_time := some now,
                       duration := some (now - last.start_time) }]
      else steps

/-- The document update performed by `mark_step` after a successful read
(src lines 1144-1168): create the `steps` list if absent, close the open
step, append the new step with `sample_start_idx = len(samples)`. -/
def markStepUpdate (d : Doc) (step_name : String) (now : ℚ) : Doc :=
  let steps0 := d.steps.getD []
  let nsamples := d.samples.length
  let steps1 := markStep_closeLast steps0 now nsamples
  let newStep : Step :=
    { name := step_name, start_time := now, end_time := none, duration := none,
      sample_start_idx := nsamples, sample_end_idx := none }
  { d with steps := some (steps1 ++ [newStep]) }

/-- Result of a `mark_step` invocation.  `noFileError` is the printed
"No telemetry data file found. Start collection first." early return;
`parseFailError` is the printed "Failed to read telemetry data after 3
attempts" return.  Only the `ok` constructor carries save events. -/
inductive MarkResult
  | ok (events : List SaveEvent) (d : Doc)
  | noFileError
  | parseFailError
deriving DecidableEq, Repr

/-- Embedding of `mark_step` (src lines 1123-1182).  `fileExists` models
`os.path.exists(DATA_FILE)`; `reads` the successive `json.load` attempts
(`max_retries = 3`, 0.05 s backoff between attempts). -/
def mark_step_run (step_name : String) (now : ℚ) (fileExists : Bool)
    (reads : ℕ → ReadResult) : MarkResult :=
  if fileExists = false then .noFileError
  else
    match firstOkWithin reads 0 3 with
    | none => .parseFailError
    | some d =>
        let d' := markStepUpdate d step_name now
        .ok [⟨.atomic, d'⟩] d'

/-- Result of a `stop_collection` invocation.  `noFile` is the printed
"No telemetry data found" / `return None` early exit; `parseFail` the
printed "Failed to read telemetry data, using partial data" / `return None`
exit after 3 failed attempts (0.1 s backoff).  Only `ok` carries save
events. -/
inductive StopResult
  | ok (events : List SaveEvent) (d : Doc)
  | noFile
  | parseFail
deriving DecidableEq, Repr

/-- The document update performed by `stop_collection` after a successful
read (src lines 1092-1106): set `end_time` (the `time.time()` at line 1092,
`tEnd`), `duration = end_time - start_time`, `final_snapshot`, then close
any open step using the separate `time.time()` call at line 1104
(`tClose`). -/
def stopUpdate (d : Doc) (tEnd tClose : ℚ) (fs : FinalSnapshot) : Doc :=
  let d1 := { d with end_time := some tEnd,
                     duration := some (tEnd - d.start_time),
                     final_snapshot := some fs }
  match d1.steps with
  | none => d1
  | some l => { d1 with steps := some (stop_closeLast l tClose) }

/-- Embedding of `stop_collection` (src lines 1071-1121). -/
def stop_run (fileExists : Bool) (reads : ℕ → ReadResult) (tEnd tClose : ℚ)
    (fs : FinalSnapshot) : StopResult :=
  if fileExists = false then .noFile
  else
    match firstOkWithin reads 0 3 with
    | none => .parseFail
    | some d =>
        let d' := stopUpdate d tEnd tClose fs
        .ok [⟨.atomic, d'⟩] d'

/-! ### Snapshot mode (`snapshot_collection`, src lines 1185-1235) -/

/-- Observable action of snapshot mode: collecting sample `i`,
`time.sleep(interval)`, or the final save with its write discipline. -/
inductive SnapAction
  | collect (i : ℕ)
  | sleepFor (secs : ℤ)
  | saveDoc (mode : SaveMode)
deriving DecidableEq, Repr

/-- The `for i in range(6)` loop of `snapshot_collection`: collect a sample,
append it, and sleep the interval unless this was the last iteration
(`if i < 5`).  `fuel` counts the remaining iterations. -/
def snapshot_loop (rget : ℕ → Readings) (interval : ℤ) :
    ℕ → ℕ → CollectPrev → List Sample × List SnapAction
  | 0, _, _ => ([], [])
  | Nat.succ k, i, prev =>
      let res := collect_sample prev (rget i)
      let rest := snapshot_loop rget interval k (i + 1) res.2
      (res.1 :: rest.1,
       (SnapAction.collect i ::
          (if k = 0 then [] else [SnapAction.sleepFor interval])) ++ rest.2)

/-- Embedding of `snapshot_collection`: build the initial metadata, run the
six-iteration loop, set `end_time`/`duration`/`final_snapshot`, and save the
document with a plain `open(DATA_FILE, 'w')` (src lines 1232-1233, in
place).  `interval` is `int(os.environ.get(...))`, hence `ℤ`. -/
def snapshot_run (now : ℚ) (interval : ℤ) (snap : SnapshotInitialSnapshot)
    (ctx : GithubContext) (rget : ℕ → Readings) (tEnd : ℚ)
    (fs : FinalSnapshot) : Doc × List SnapAction :=
  let res := snapshot_loop rget interval 6 0 initPrev
  ({ start_time := now
     interval := (interval : ℚ)
     samples := res.1
     initial_snapshot := some (.ofSnapshot snap)
     github_context := some ctx
     steps := none
     end_time := some tEnd
     duration := some (tEnd - now)
     final_snapshot := some fs
     last_update := none },
   res.2 ++ [SnapAction.saveDoc .inPlace])

/-- Extract the write discipline of a save action of snapshot mode. -/
def saveModeOf : SnapAction → Option SaveMode
  | .saveDoc m => some m
  | _ => none

/-- The save events carried by a `mark_step` result: the error exits of
`mark_step` return before any write, so they carry none. -/
def markEvents : MarkResult → List SaveEvent
  | .ok ev _ => ev
  | .noFileError => []
  | .parseFailError => []

/-- The save events carried by a `stop_collection` result. -/
def stopEvents : StopResult → List SaveEvent
  | .ok ev _ => ev
  | .noFile => []
  | .parseFail => []

/-! ### Concrete fixtures used by counterexamples and witnesses -/

/-- All-zero detailed CPU counters. -/
def cpuDet0 : CpuDetailed := ⟨0, 0, 0, 0, 0, 0, 0, 0, 0⟩

/-- A concrete tick reading at `t = 1`, cumulative CPU mode, all counters 0. -/
def readings0 : Readings :=
  { timestamp := 1, cpu := (0, 0), cpuDetailed := cpuDet0, ctxt := 0,
    memory := [], swap := [], disk_space := [], load := [],
    file_descriptors := [], tcp_connections := [],
    disk := ⟨0, 0⟩, net := ⟨0, 0⟩, process_count := 0, thread_count := 0 }

/-- An explicit all-zero sample, used to populate concrete documents. -/
def sampleZero : Sample :=
  { timestamp := 0, cpu_percent := 0, cpu_iowait_percent := 0,
    cpu_steal_percent := 0, context_switches_rate := 0, memory := [],
    swap := [], disk_read_bytes := 0, disk_write_bytes := 0,
    disk_read_rate := 0, disk_write_rate := 0, disk_space := [],
    net_rx_bytes := 0, net_tx_bytes := 0, net_rx_rate := 0, net_tx_rate := 0,
    load := [], process_count := 0, thread_count := 0,
    file_descriptors := [], tcp_connections := [] }

/-- A concrete `github_context` (all environment variables unset). -/
def ctx0 : GithubContext :=
  ⟨"N/A", "N/A", "N/A", "N/A", "N/A", "N/A", "N/A", "N/A", "N/A"⟩

/-- Empty top-process lists. -/
def topProcs0 : TopProcesses := ⟨[], []⟩

/-- A concrete full initial snapshot. -/
def snapStart0 : StartInitialSnapshot := ⟨1, [], [], [], [], [], topProcs0⟩

/-- A concrete snapshot-mode initial snapshot. -/
def snapBrief0 : SnapshotInitialSnapshot := ⟨1, [], topProcs0⟩

/-- A concrete final snapshot. -/
def fs0 : FinalSnapshot := ⟨topProcs0, []⟩

/-- A concrete freshly started document with no samples and no steps key. -/
def doc0 : Doc :=
  { start_time := 0, interval := 2, samples := [],
    initial_snapshot := none, github_context := none, steps := none,
    end_time := none, duration := none, final_snapshot := none,
    last_update := none }

/-- A still-open step started at `t = 0` covering samples from index 0. -/
def stepOpen : Step :=
  { name := "build", start_time := 0, end_time := none, duration := none,
    sample_start_idx := 0, sample_end_idx := none }

/-- A document with two samples and one open step. -/
def docOpen : Doc :=
  { doc0 with samples := [sampleZero, sampleZero], steps := some [stepOpen] }

/-- A tick whose data-file read succeeds. -/
def tickOk0 : Tick := { readings := readings0, read := .ok doc0 }

/-- A tick whose data-file read raises `JSONDecodeError`. -/
def tickFail0 : Tick := { readings := readings0, read := .parseError }

/-- A previous state whose disk read counter (1000) exceeds the next
reading (0), as after a counter reset. -/
def prevDiskNeg : CollectPrev :=
  { initPrev with prev_disk := some (⟨1000, 0⟩, 0) }

/-- A previous state with every raw counter present at time 0. -/
def prevMono : CollectPrev :=
  { prev_cpu := some (100, 200), prev_cpu_detailed := some cpuDet0,
    prev_disk := some (⟨0, 0⟩, 0), prev_net := some (⟨0, 0⟩, 0),
    prev_ctxt := some (0, 0) }

/-- Readings at time 1 whose counters all grew since `prevMono`. -/
def readingsMono : Readings :=
  { readings0 with
      cpu := (150, 250),
      cpuDetailed := { cpuDet0 with iowait := 1, steal := 2, total := 10 },
      ctxt := 5, disk := ⟨7, 8⟩, net := ⟨9, 10⟩ }

/-- A previous CPU reading of cumulative idle 100, total 200. -/
def prevScenD : CollectPrev := { initPrev with prev_cpu := some (100, 200) }

/-- A current CPU reading of cumulative idle 150, total 250 (spec
Scenario D). -/
def readingsD : Readings := { readings0 with cpu := (150, 250) }

/-- A direct-percentage CPU reading of 37 %. -/
def readingsDirect : Readings := { readings0 with cpu := (37, -1) }

/-! ### Helper lemmas about the rounding functions -/

theorem pyRound2_nonneg {q : ℚ} (h : 0 ≤ q) : 0 ≤ pyRound2 q := by
  unfold pyRound2
  have h0 : (0 : ℤ) ≤ round (q * 100) := by
    rw [round_eq]
    exact Int.le_floor.mpr (by push_cast; linarith)
  positivity

theorem pyRound0_nonneg {q : ℚ} (h : 0 ≤ q) : 0 ≤ pyRound0 q := by
  unfold pyRound0
  rw [round_eq]
  exact Int.le_floor.mpr (by push_cast; linarith)

theorem pyRound2_eq_self {q : ℚ} {z : ℤ} (h : q * 100 = (z : ℚ)) :
    pyRound2 q = q := by
  unfold pyRound2
  rw [h, round_intCast]
  field_simp
  linarith

/-! ### Characterization lemmas for the fields of `collect_sample` -/

theorem collect_sample_cpu_percent (prev : CollectPrev) (r : Readings) :
    (collect_sample prev r).1.cpu_percent =
      if r.cpu.2 = -1 then pyRound2 r.cpu.1
      else
        match prev.prev_cpu with
        | some (pidle, ptotal) =>
            if ptotal = -1 then 0
            else if 0 < r.cpu.2 - ptotal then
              pyRound2 (100 * (1 - (r.cpu.1 - pidle) / (r.cpu.2 - ptotal)))
            else 0
        | none => 0 := by
  rcases h : prev.prev_cpu with _ | ⟨pidle, ptotal⟩ <;>
    by_cases hm : r.cpu.2 = -1 <;>
      simp [collect_sample, h, hm]

theorem collect_sample_iowait (prev : CollectPrev) (r : Readings) :
    (collect_sample prev r).1.cpu_iowait_percent =
      match prev.prev_cpu_detailed with
      | some p =>
          if 0 < r.cpuDetailed.total - p.total then
            pyRound2 (100 * ((r.cpuDetailed.iowait - p.iowait : ℤ) : ℚ) /
              ((r.cpuDetailed.total - p.total : ℤ) : ℚ))
          else 0
      | none => 0 := by
  unfold collect_sample
  rcases h : prev.prev_cpu_detailed with _ | p <;> simp [h] <;> split <;> simp

theorem collect_sample_steal (prev : CollectPrev) (r : Readings) :
    (collect_sample prev r).1.cpu_steal_percent =
      match prev.prev_cpu_detailed with
      | some p =>
          if 0 < r.cpuDetailed.total - p.total then
            pyRound2 (100 * ((r.cpuDetailed.steal - p.steal : ℤ) : ℚ) /
              ((r.cpuDetailed.total - p.total : ℤ) : ℚ))
          else 0
      | none => 0 := by
  unfold collect_sample
  rcases h : prev.prev_cpu_detailed with _ | p <;> simp [h] <;> split <;> simp

theorem collect_sample_ctxt_rate (prev : CollectPrev) (r : Readings) :
    (collect_sample prev r).1.context_switches_rate =
      match prev.prev_ctxt with
      | some (pcount, pts) =>
          if 0 < r.timestamp - pts then
            pyRound0 (((r.ctxt - pcount : ℤ) : ℚ) / (r.timestamp - pts))
          else 0
      | none => 0 := by
  unfold collect_sample
  rcases h : prev.prev_ctxt with _ | ⟨pc, pts⟩ <;> simp [h]

theorem collect_sample_disk_rates (prev : CollectPrev) (r : Readings) :
    ((collect_sample prev r).1.disk_read_rate,
     (collect_sample prev r).1.disk_write_rate) =
      match prev.prev_disk with
      | some (pd, pts) =>
          if 0 < r.timestamp - pts then
            (((r.disk.read_bytes - pd.read_bytes : ℤ) : ℚ) / (r.timestamp - pts),
             ((r.disk.write_bytes - pd.write_bytes : ℤ) : ℚ) / (r.timestamp - pts))
          else (0, 0)
      | none => (0, 0) := by
  unfold collect_sample
  rcases h : prev.prev_disk with _ | ⟨pd, pts⟩ <;> simp [h]

theorem collect_sample_net_rates (prev : CollectPrev) (r : Readings) :
    ((collect_sample prev r).1.net_rx_rate,
     (collect_sample prev r).1.net_tx_rate) =
      match prev.prev_net with
      | some (pn, pts) =>
          if 0 < r.timestamp - pts then
            (((r.net.rx_bytes - pn.rx_bytes : ℤ) : ℚ) / (r.timestamp - pts),
             ((r.net.tx_bytes - pn.tx_bytes : ℤ) : ℚ) / (r.timestamp - pts))
          else (0, 0)
      | none => (0, 0) := by
  unfold collect_sample
  rcases h : prev.prev_net with _ | ⟨pn, pts⟩ <;> simp [h]

/-! ### Helper lemmas about the collection and snapshot loops -/

theorem loop_go_outcome_map (prev : CollectPrev) (ticks : List Tick) :
    (loop_go prev ticks).2
      = ticks.map (fun t =>
          match t.read with
          | .ok _ => TickOutcome.saved
          | .parseError => TickOutcome.skippedRetry) := by
  induction ticks generalizing prev with
  | nil => rfl
  | cons t ts ih =>
      rcases hr : t.read with d | _ <;> simp [loop_go, hr, ih]

theorem loop_go_atomic (prev : CollectPrev) (ticks : List Tick) :
    ∀ e ∈ (loop_go prev ticks).1, e.mode = SaveMode.atomic := by
  induction ticks generalizing prev with
  | nil => simp [loop_go]
  | cons t ts ih =>
      intro e he
      rcases hr : t.read with d | _
      · simp [loop_go, hr] at he
        rcases he with rfl | he
        · rfl
        · exact ih _ _ he
      · simp [loop_go, hr] at he
        exact ih _ _ he

theorem loop_go_events_nil (prev : CollectPrev) (ticks : List Tick)
    (h : ∀ t ∈ ticks, t.read = ReadResult.parseError) :
    (loop_go prev ticks).1 = [] := by
  induction ticks generalizing prev with
  | nil => rfl
  | cons t ts ih =>
      have ht : t.read = ReadResult.parseError := h t (by simp)
      simp [loop_go, ht]
      exact ih _ (fun t' h' => h t' (by simp [h']))

theorem snapshot_loop_no_save (rget : ℕ → Readings) (interval : ℤ) :
    ∀ (fuel i : ℕ) (prev : CollectPrev),
      (snapshot_loop rget interval fuel i prev).2.filterMap saveModeOf = [] := by
  intro fuel
  induction fuel with
  | zero => intro i prev; rfl
  | succ k ih =>
      intro i prev
      by_cases hk : k = 0 <;> simp [snapshot_loop, hk, saveModeOf, ih]

/-! ### C7 -/

/-- C7: invoking `mark_step` or `stop_collection` when no persisted document
exists at the configured path returns the explicit no-file error result
(the printed "No telemetry data file found. Start collection first." /
"No telemetry data found" messages, modelled by the dedicated error
constructors) and performs no save at all, so no document file is created
as a side effect. -/
theorem c7_missing_document_explicit_error :
    (∀ (sname : String) (now : ℚ) (reads : ℕ → ReadResult),
        mark_step_run sname now false reads = MarkResult.noFileError
        ∧ markEvents (mark_step_run sname now false reads) = [])
    ∧ (∀ (reads : ℕ → ReadResult) (tE tC : ℚ) (fs : FinalSnapshot),
        stop_run false reads tE tC fs = StopResult.noFile
        ∧ stopEvents (stop_run false reads tE tC fs) = []) :=
  ⟨fun _ _ _ => ⟨rfl, rfl⟩, fun _ _ _ _ => ⟨rfl, rfl⟩⟩

/-! ### C8 -/

/-- C8 counterexample: the initial document built by `start_collection`
has no `steps` key at all — the dict literal at src lines 995-1020 contains
no `'steps': []` entry (the key is only created lazily by `mark_step`) —
whereas the claim asserts an empty steps list is present. -/
theorem c8_counterexample_no_steps_key :
    (start_initialDoc 0 2 snapStart0 ctx0).steps = none
    ∧ (none : Option (List Step)) ≠ some [] :=
  ⟨rfl, by simp⟩

/-- C8 (amended): `start_collection` creates the initial persisted document
with the captured `initial_snapshot` and `github_context` and an empty
`samples` list, but no `steps` key (the steps list is created lazily by the
first `mark_step`); the document is saved — in place — before the sampling
loop performs any of its own saves. -/
theorem c8_initial_document (now itv : ℚ) (snap : StartInitialSnapshot)
    (ctx : GithubContext) (ticks : List Tick) :
    (start_initialDoc now itv snap ctx).samples = []
    ∧ (start_initialDoc now itv snap ctx).initial_snapshot
        = some (InitialSnapshotVal.ofStart snap)
    ∧ (start_initialDoc now itv snap ctx).github_context = some ctx
    ∧ (start_initialDoc now itv snap ctx).steps = none
    ∧ (start_initialDoc now itv snap ctx).end_time = none
    ∧ start_events now itv snap ctx ticks
        = ⟨SaveMode.inPlace, start_initialDoc now itv snap ctx⟩
            :: (loop_go initPrev ticks).1 :=
  ⟨rfl, rfl, rfl, rfl, rfl, rfl⟩

/-! ### C10 -/

/-- C10: snapshot mode collects exactly 6 samples in order, sleeping the
configured interval after each sample except the last, and finalizes the
document in the same invocation: `end_time = tEnd`,
`duration = end_time - start_time` and `final_snapshot` are all set. -/
theorem c10_snapshot_behavior (now : ℚ) (interval : ℤ)
    (snap : SnapshotInitialSnapshot) (ctx : GithubContext)
    (rget : ℕ → Readings) (tEnd : ℚ) (fs : FinalSnapshot) :
    (snapshot_run now interval snap ctx rget tEnd fs).1.samples.length = 6
    ∧ (snapshot_run now interval snap ctx rget tEnd fs).2
        = [SnapAction.collect 0, SnapAction.sleepFor interval,
           SnapAction.collect 1, SnapAction.sleepFor interval,
           SnapAction.collect 2, SnapAction.sleepFor interval,
           SnapAction.collect 3, SnapAction.sleepFor interval,
           SnapAction.collect 4, SnapAction.sleepFor interval,
           SnapAction.collect 5, SnapAction.saveDoc SaveMode.inPlace]
    ∧ (snapshot_run now interval snap ctx rget tEnd fs).1.end_time = some tEnd
    ∧ (snapshot_run now interval snap ctx rget tEnd fs).1.duration
        = some (tEnd - now)
    ∧ (snapshot_run now interval snap ctx rget tEnd fs).1.final_snapshot
        = some fs := by
  refine ⟨?_, ?_, rfl, rfl, rfl⟩
  · simp [snapshot_run, snapshot_loop]
  · simp [snapshot_run, snapshot_loop]

/-! ### C1 -/

/-- C1 counterexample: with one successful tick, the saves performed by
`start_collection` are an in-place write (the initial save, src lines
1022-1024: `open(DATA_FILE, 'w')` with no temp-and-rename) followed by the
loop's atomic write; and the single save of snapshot mode (src lines
1232-1233) is also in place.  The claim asserts every save is atomic. -/
theorem c1_counterexample_in_place_saves :
    (start_events 0 2 snapStart0 ctx0 [tickOk0]).map SaveEvent.mode
        = [SaveMode.inPlace, SaveMode.atomic]
    ∧ (snapshot_run 0 2 snapBrief0 ctx0 (fun _ => readings0) 12 fs0).2.filterMap
        saveModeOf = [SaveMode.inPlace]
    ∧ SaveMode.inPlace ≠ SaveMode.atomic := by
  refine ⟨?_, ?_, by simp⟩
  · simp [start_events, loop_go, tickOk0]
  · simp [snapshot_run, snapshot_loop_no_save, saveModeOf]

/-- C1 (amended): the sampling-tick saves of the collection loop and the
saves of `mark_step` and `stop_collection` are atomic (temp file plus
`os.replace`), but the initial save of `start_collection` and the final
save of snapshot mode write the document file in place. -/
theorem c1_save_disciplines_by_operation :
    (∀ (now itv : ℚ) (snap : StartInitialSnapshot) (ctx : GithubContext)
        (ticks : List Tick),
        (start_events now itv snap ctx ticks).map SaveEvent.mode
          = SaveMode.inPlace :: (loop_go initPrev ticks).1.map SaveEvent.mode)
    ∧ (∀ (prev : CollectPrev) (ticks : List Tick),
        ∀ e ∈ (loop_go prev ticks).1, e.mode = SaveMode.atomic)
    ∧ (∀ (sname : String) (now : ℚ) (reads : ℕ → ReadResult)
        (ev : List SaveEvent) (d : Doc),
        mark_step_run sname now true reads = MarkResult.ok ev d →
        ev.map SaveEvent.mode = [SaveMode.atomic])
    ∧ (∀ (reads : ℕ → ReadResult) (tE tC : ℚ) (fs : FinalSnapshot)
        (ev : List SaveEvent) (d : Doc),
        stop_run true reads tE tC fs = StopResult.ok ev d →
        ev.map SaveEvent.mode = [SaveMode.atomic])
    ∧ (∀ (now : ℚ) (interval : ℤ) (snap : SnapshotInitialSnapshot)
        (ctx : GithubContext) (rget : ℕ → Readings) (tEnd : ℚ)
        (fs : FinalSnapshot),
        (snapshot_run now interval snap ctx rget tEnd fs).2.filterMap saveModeOf
          = [SaveMode.inPlace]) := by
  refine ⟨fun _ _ _ _ _ => rfl, loop_go_atomic, ?_, ?_, ?_⟩
  · intro sname now reads ev d h
    rcases hf : firstOkWithin reads 0 3 with _ | d0 <;>
      simp [mark_step_run, hf] at h
    obtain ⟨rfl, rfl⟩ := h
    rfl
  · intro reads tE tC fs ev d h
    rcases hf : firstOkWithin reads 0 3 with _ | d0 <;>
      simp [stop_run, hf] at h
    obtain ⟨rfl, rfl⟩ := h
    rfl
  · intro now interval snap ctx rget tEnd fs
    simp [snapshot_run, snapshot_loop_no_save, saveModeOf]

/-- C1 witness: the amended theorem applied at concrete successful
`mark_step` and `stop_collection` invocations. -/
theorem c1_save_disciplines_witness :
    ([(⟨SaveMode.atomic, markStepUpdate doc0 "x" 1⟩ : SaveEvent)]).map
        SaveEvent.mode = [SaveMode.atomic]
    ∧ ([(⟨SaveMode.atomic, stopUpdate doc0 5 6 fs0⟩ : SaveEvent)]).map
        SaveEvent.mode = [SaveMode.atomic] :=
  ⟨c1_save_disciplines_by_operation.2.2.1 "x" 1 (fun _ => ReadResult.ok doc0)
      _ _ rfl,
   c1_save_disciplines_by_operation.2.2.2.1 (fun _ => ReadResult.ok doc0)
      5 6 fs0 _ _ rfl⟩

/-! ### C3 -/

/-- C3 counterexample: `docOpen` holds 2 samples and one open step; the
step-closing branch of `stop_collection` (src lines 1101-1106) sets
`end_time` and `duration` but not `sample_end_idx`, which stays absent,
while the claim requires it to be set to the sample count minus 1. -/
theorem c3_counterexample_stop_close_no_end_idx :
    (stopUpdate docOpen 10 10 fs0).steps
        = some [{ name := "build", start_time := 0, end_time := some 10,
                  duration := some 10, sample_start_idx := 0,
                  sample_end_idx := none }]
    ∧ docOpen.samples.length = 2
    ∧ (none : Option ℤ) ≠ some ((2 : ℤ) - 1) := by
  refine ⟨?_, rfl, by decide⟩
  norm_num [stopUpdate, docOpen, doc0, stop_closeLast, stepOpen, Step.mk.injEq]

/-- C3 (amended): when `mark_step` closes the open step it sets `end_time`,
`duration = end_time - start_time` and `sample_end_idx = sample count - 1`,
and the newly opened step has `sample_start_idx` equal to the sample count;
when `stop_collection` closes the open step it sets `end_time` and
`duration` only — `sample_end_idx` is left unset. -/
theorem c3_step_close_semantics :
    (∀ (d : Doc) (sname : String) (now : ℚ) (l : List Step) (last : Step),
        d.steps = some (l ++ [last]) → last.end_time = none →
        (markStepUpdate d sname now).steps
          = some (l ++
              [{ last with end_time := some now,
                           duration := some (now - last.start_time),
                           sample_end_idx := some ((d.samples.length : ℤ) - 1) },
                { name := sname, start_time := now, end_time := none,
                  duration := none, sample_start_idx := d.samples.length,
                  sample_end_idx := none }]))
    ∧ (∀ (d : Doc) (sname : String) (now : ℚ),
        ((markStepUpdate d sname now).steps.getD []).getLast?
          = some { name := sname, start_time := now, end_time := none,
                   duration := none, sample_start_idx := d.samples.length,
                   sample_end_idx := none })
    ∧ (∀ (d : Doc) (tE tC : ℚ) (fs : FinalSnapshot) (l : List Step)
        (last : Step),
        d.steps = some (l ++ [last]) → last.end_time = none →
        (stopUpdate d tE tC fs).steps
          = some (l ++
              [{ last with end_time := some tC,
                           duration := some (tC - last.start_time) }])) := by
  refine ⟨?_, ?_, ?_⟩
  · intro d sname now l last hsteps hopen
    simp [markStepUpdate, hsteps, markStep_closeLast, List.getLast?_concat,
      hopen, List.dropLast_concat]
  · intro d sname now
    simp [markStepUpdate]
  · intro d tE tC fs l last hsteps hopen
    simp [stopUpdate, hsteps, stop_closeLast, List.getLast?_concat, hopen,
      List.dropLast_concat]

/-- C3 witness: the amended theorem applied to the concrete document with
two samples and one open step. -/
theorem c3_step_close_semantics_witness :
    (markStepUpdate docOpen "next" 10).steps
      = some ([] ++
          [{ stepOpen with end_time := some (10 : ℚ),
                           duration := some ((10 : ℚ) - stepOpen.start_time),
                           sample_end_idx :=
                             some ((docOpen.samples.length : ℤ) - 1) },
            { name := "next", start_time := 10, end_time := none,
              duration := none, sample_start_idx := docOpen.samples.length,
              sample_end_idx := none }])
    ∧ (stopUpdate docOpen 12 13 fs0).steps
      = some ([] ++
          [{ stepOpen with end_time := some (13 : ℚ),
                           duration := some ((13 : ℚ) - stepOpen.start_time) }]) :=
  ⟨c3_step_close_semantics.1 docOpen "next" 10 [] stepOpen rfl rfl,
   c3_step_close_semantics.2.2 docOpen 12 13 fs0 [] stepOpen rfl rfl⟩

/-! ### C4 -/

/-- C4: on the first sample of a run (all previous raw counters absent)
every rate field with cumulative-counter semantics is reported as 0
regardless of the reader values: iowait/steal percentages, context-switch
rate, disk and network rates unconditionally, and `cpu_percent` whenever the
CPU reader is in cumulative mode (second component not the `-1` direct-mode
sentinel; in direct-percentage mode `cpu_percent` is not a rate — the
reading is used as the percentage). -/
theorem c4_first_sample_rate_fields_zero (r : Readings) :
    ((collect_sample initPrev r).1.cpu_iowait_percent = 0
      ∧ (collect_sample initPrev r).1.cpu_steal_percent = 0
      ∧ (collect_sample initPrev r).1.context_switches_rate = 0
      ∧ (collect_sample initPrev r).1.disk_read_rate = 0
      ∧ (collect_sample initPrev r).1.disk_write_rate = 0
      ∧ (collect_sample initPrev r).1.net_rx_rate = 0
      ∧ (collect_sample initPrev r).1.net_tx_rate = 0)
    ∧ (r.cpu.2 ≠ -1 → (collect_sample initPrev r).1.cpu_percent = 0) := by
  constructor
  · have hd := collect_sample_disk_rates initPrev r
    have hn := collect_sample_net_rates initPrev r
    simp [initPrev] at hd hn
    refine ⟨?_, ?_, ?_, hd.1, hd.2, hn.1, hn.2⟩
    · simpa [initPrev] using collect_sample_iowait initPrev r
    · simpa [initPrev] using collect_sample_steal initPrev r
    · simpa [initPrev] using collect_sample_ctxt_rate initPrev r
  · intro hm
    simp [collect_sample_cpu_percent, initPrev, hm]

/-- C4 witness: the theorem applied to the concrete cumulative-mode
reading `readings0`. -/
theorem c4_first_sample_witness :
    readings0.cpu.2 ≠ -1
    ∧ (collect_sample initPrev readings0).1.cpu_percent = 0
    ∧ (collect_sample initPrev readings0).1.disk_read_rate = 0 :=
  ⟨by decide, (c4_first_sample_rate_fields_zero readings0).2 (by decide),
   (c4_first_sample_rate_fields_zero readings0).1.2.2.2.1⟩

/-! ### C6 -/

/-- C6 counterexample: the failure-path dict of `_linux_get_load_average`
has only three keys while its success-path dict has four
(`running_procs` is missing), and the failure-path dict of
`_macos_get_memory_info` has four keys while its success path has six
(`buffers_mb` and `cached_mb` are missing) — the claim asserts exactly the
same keys on both paths. -/
theorem c6_counterexample_failure_shape :
    (linux_get_load_average none).map Prod.fst
        = ["load_1m", "load_5m", "load_15m"]
    ∧ (linux_get_load_average (some (1, 1, 1, "2/100"))).map Prod.fst
        = ["load_1m", "load_5m", "load_15m", "running_procs"]
    ∧ (macos_get_memory_info none).map Prod.fst
        = ["total_mb", "used_mb", "available_mb", "percent"]
    ∧ (macos_get_memory_info
          (some ⟨8589934592, 4096, 1000, 1000, 1000⟩)).map Prod.fst
        = ["total_mb", "used_mb", "available_mb", "buffers_mb", "cached_mb",
           "percent"]
    ∧ (["load_1m", "load_5m", "load_15m"] : List String)
        ≠ ["load_1m", "load_5m", "load_15m", "running_procs"] :=
  ⟨rfl, rfl, rfl, rfl, by decide⟩

/-- C6 (amended): the cited readers never raise and return zero-valued
dicts on failure, but those failure dicts have strictly fewer keys than the
corresponding success dicts: the load-average failure dict omits
`running_procs`, the macOS memory failure dict omits `buffers_mb` and
`cached_mb`. -/
theorem c6_reader_failure_shapes (l1 l5 l15 : ℚ) (rp : String)
    (v : VmStatInput) :
    linux_get_load_average none
        = [("load_1m", JVal.jnum 0), ("load_5m", JVal.jnum 0),
           ("load_15m", JVal.jnum 0)]
    ∧ (linux_get_load_average (some (l1, l5, l15, rp))).map Prod.fst
        = ["load_1m", "load_5m", "load_15m", "running_procs"]
    ∧ macos_get_memory_info none
        = [("total_mb", JVal.jnum 0), ("used_mb", JVal.jnum 0),
           ("available_mb", JVal.jnum 0), ("percent", JVal.jnum 0)]
    ∧ (macos_get_memory_info (some v)).map Prod.fst
        = ["total_mb", "used_mb", "available_mb", "buffers_mb", "cached_mb",
           "percent"] :=
  ⟨rfl, rfl, rfl, rfl⟩

/-! ### Per-component rate characterizations -/

theorem collect_sample_disk_read_rate (prev : CollectPrev) (r : Readings) :
    (collect_sample prev r).1.disk_read_rate =
      match prev.prev_disk with
      | some (pd, pts) =>
          if 0 < r.timestamp - pts then
            ((r.disk.read_bytes - pd.read_bytes : ℤ) : ℚ) / (r.timestamp - pts)
          else 0
      | none => 0 := by
  rcases h : prev.prev_disk with _ | ⟨pd, pts⟩ <;>
    simp only [collect_sample, h] <;>
      first
        | rfl
        | (split <;> rfl)

theorem collect_sample_disk_write_rate (prev : CollectPrev) (r : Readings) :
    (collect_sample prev r).1.disk_write_rate =
      match prev.prev_disk with
      | some (pd, pts) =>
          if 0 < r.timestamp - pts then
            ((r.disk.write_bytes - pd.write_bytes : ℤ) : ℚ) / (r.timestamp - pts)
          else 0
      | none => 0 := by
  rcases h : prev.prev_disk with _ | ⟨pd, pts⟩ <;>
    simp only [collect_sample, h] <;>
      first
        | rfl
        | (split <;> rfl)

theorem collect_sample_net_rx_rate (prev : CollectPrev) (r : Readings) :
    (collect_sample prev r).1.net_rx_rate =
      match prev.prev_net with
      | some (pn, pts) =>
          if 0 < r.timestamp - pts then
            ((r.net.rx_bytes - pn.rx_bytes : ℤ) : ℚ) / (r.timestamp - pts)
          else 0
      | none => 0 := by
  rcases h : prev.prev_net with _ | ⟨pn, pts⟩ <;>
    simp only [collect_sample, h] <;>
      first
        | rfl
        | (split <;> rfl)

theorem collect_sample_net_tx_rate (prev : CollectPrev) (r : Readings) :
    (collect_sample prev r).1.net_tx_rate =
      match prev.prev_net with
      | some (pn, pts) =>
          if 0 < r.timestamp - pts then
            ((r.net.tx_bytes - pn.tx_bytes : ℤ) : ℚ) / (r.timestamp - pts)
          else 0
      | none => 0 := by
  rcases h : prev.prev_net with _ | ⟨pn, pts⟩ <;>
    simp only [collect_sample, h] <;>
      first
        | rfl
        | (split <;> rfl)

/-! ### C2 -/

/-- C2 counterexample: when the cumulative disk read counter decreases from
1000 to 0 over one second, `collect_sample` reports a disk read rate of
-1000 bytes/sec — there is no clamping to 0 anywhere in src lines 923-944. -/
theorem c2_counterexample_negative_rate :
    (collect_sample prevDiskNeg readings0).1.disk_read_rate = -1000
    ∧ ¬ (0 ≤ (collect_sample prevDiskNeg readings0).1.disk_read_rate) := by
  have h : (collect_sample prevDiskNeg readings0).1.disk_read_rate = -1000 := by
    rw [collect_sample_disk_read_rate]
    have hp : prevDiskNeg.prev_disk
        = some ((⟨1000, 0⟩ : DiskCounters), (0 : ℚ)) := rfl
    rw [hp]
    norm_num [readings0]
  exact ⟨h, by rw [h]; norm_num⟩

/-- C2 (amended): all rates reported by `collect_sample` are ≥ 0 provided
every cumulative counter is non-decreasing between the two ticks (and, for
CPU, the idle delta does not exceed the total delta, and a direct-mode
percentage reading is itself ≥ 0); when a cumulative counter does decrease,
the code computes and reports a negative rate — nothing clamps it to 0. -/
theorem c2_rates_nonneg_of_monotone (prev : CollectPrev) (r : Readings)
    (hdirect : r.cpu.2 = -1 → 0 ≤ r.cpu.1)
    (hcpu : ∀ pidle ptotal, prev.prev_cpu = some (pidle, ptotal) →
        r.cpu.1 - pidle ≤ r.cpu.2 - ptotal)
    (hdet : ∀ p, prev.prev_cpu_detailed = some p →
        p.iowait ≤ r.cpuDetailed.iowait ∧ p.steal ≤ r.cpuDetailed.steal)
    (hctxt : ∀ c ts, prev.prev_ctxt = some (c, ts) → c ≤ r.ctxt)
    (hdisk : ∀ pd ts, prev.prev_disk = some (pd, ts) →
        pd.read_bytes ≤ r.disk.read_bytes ∧ pd.write_bytes ≤ r.disk.write_bytes)
    (hnet : ∀ pn ts, prev.prev_net = some (pn, ts) →
        pn.rx_bytes ≤ r.net.rx_bytes ∧ pn.tx_bytes ≤ r.net.tx_bytes) :
    0 ≤ (collect_sample prev r).1.cpu_percent
    ∧ 0 ≤ (collect_sample prev r).1.cpu_iowait_percent
    ∧ 0 ≤ (collect_sample prev r).1.cpu_steal_percent
    ∧ 0 ≤ (collect_sample prev r).1.context_switches_rate
    ∧ 0 ≤ (collect_sample prev r).1.disk_read_rate
    ∧ 0 ≤ (collect_sample prev r).1.disk_write_rate
    ∧ 0 ≤ (collect_sample prev r).1.net_rx_rate
    ∧ 0 ≤ (collect_sample prev r).1.net_tx_rate := by
  refine ⟨?_, ?_, ?_, ?_, ?_, ?_, ?_, ?_⟩
  · rw [collect_sample_cpu_percent]
    by_cases hm : r.cpu.2 = -1
    · rw [if_pos hm]
      exact pyRound2_nonneg (hdirect hm)
    · rw [if_neg hm]
      rcases hp : prev.prev_cpu with _ | ⟨pidle, ptotal⟩ <;> dsimp only
      · exact le_refl 0
      · by_cases h1 : ptotal = -1
        · rw [if_pos h1]
        · rw [if_neg h1]
          by_cases h2 : 0 < r.cpu.2 - ptotal
          · rw [if_pos h2]
            refine pyRound2_nonneg ?_
            have hle := hcpu pidle ptotal hp
            have hdiv : (r.cpu.1 - pidle) / (r.cpu.2 - ptotal) ≤ 1 :=
              (div_le_one h2).mpr hle
            linarith
          · rw [if_neg h2]
  · rw [collect_sample_iowait]
    rcases hp : prev.prev_cpu_detailed with _ | p <;> dsimp only
    · exact le_refl 0
    · by_cases h2 : 0 < r.cpuDetailed.total - p.total
      · rw [if_pos h2]
        refine pyRound2_nonneg (div_nonneg ?_ ?_)
        · have h4 : (0 : ℚ) ≤ ((r.cpuDetailed.iowait - p.iowait : ℤ) : ℚ) := by
            exact_mod_cast sub_nonneg.mpr (hdet p hp).1
          linarith
        · have h5 : (0 : ℚ) < ((r.cpuDetailed.total - p.total : ℤ) : ℚ) := by
            exact_mod_cast h2
          linarith
      · rw [if_neg h2]
  · rw [collect_sample_steal]
    rcases hp : prev.prev_cpu_detailed with _ | p <;> dsimp only
    · exact le_refl 0
    · by_cases h2 : 0 < r.cpuDetailed.total - p.total
      · rw [if_pos h2]
        refine pyRound2_nonneg (div_nonneg ?_ ?_)
        · have h4 : (0 : ℚ) ≤ ((r.cpuDetailed.steal - p.steal : ℤ) : ℚ) := by
            exact_mod_cast sub_nonneg.mpr (hdet p hp).2
          linarith
        · have h5 : (0 : ℚ) < ((r.cpuDetailed.total - p.total : ℤ) : ℚ) := by
            exact_mod_cast h2
          linarith
      · rw [if_neg h2]
  · rw [collect_sample_ctxt_rate]
    rcases hp : prev.prev_ctxt with _ | ⟨c, ts⟩ <;> dsimp only
    · exact le_refl 0
    · by_cases h2 : 0 < r.timestamp - ts
      · rw [if_pos h2]
        refine pyRound0_nonneg (div_nonneg ?_ (le_of_lt h2))
        exact_mod_cast sub_nonneg.mpr (hctxt c ts hp)
      · rw [if_neg h2]
  · rw [collect_sample_disk_read_rate]
    rcases hp : prev.prev_disk with _ | ⟨pd, ts⟩ <;> dsimp only
    · exact le_refl 0
    · by_cases h2 : 0 < r.timestamp - ts
      · rw [if_pos h2]
        refine div_nonneg ?_ (le_of_lt h2)
        exact_mod_cast sub_nonneg.mpr (hdisk pd ts hp).1
      · rw [if_neg h2]
  · rw [collect_sample_disk_write_rate]
    rcases hp : prev.prev_disk with _ | ⟨pd, ts⟩ <;> dsimp only
    · exact le_refl 0
    · by_cases h2 : 0 < r.timestamp - ts
      · rw [if_pos h2]
        refine div_nonneg ?_ (le_of_lt h2)
        exact_mod_cast sub_nonneg.mpr (hdisk pd ts hp).2
      · rw [if_neg h2]
  · rw [collect_sample_net_rx_rate]
    rcases hp : prev.prev_net with _ | ⟨pn, ts⟩ <;> dsimp only
    · exact le_refl 0
    · by_cases h2 : 0 < r.timestamp - ts
      · rw [if_pos h2]
        refine div_nonneg ?_ (le_of_lt h2)
        exact_mod_cast sub_nonneg.mpr (hnet pn ts hp).1
      · rw [if_neg h2]
  · rw [collect_sample_net_tx_rate]
    rcases hp : prev.prev_net with _ | ⟨pn, ts⟩ <;> dsimp only
    · exact le_refl 0
    · by_cases h2 : 0 < r.timestamp - ts
      · rw [if_pos h2]
        refine div_nonneg ?_ (le_of_lt h2)
        exact_mod_cast sub_nonneg.mpr (hnet pn ts hp).2
      · rw [if_neg h2]

/-- C2 witness: the amended theorem applied at the concrete monotone pair
of ticks `prevMono` / `readingsMono`. -/
theorem c2_rates_nonneg_witness :
    0 ≤ (collect_sample prevMono readingsMono).1.cpu_percent
    ∧ 0 ≤ (collect_sample prevMono readingsMono).1.cpu_iowait_percent
    ∧ 0 ≤ (collect_sample prevMono readingsMono).1.cpu_steal_percent
    ∧ 0 ≤ (collect_sample prevMono readingsMono).1.context_switches_rate
    ∧ 0 ≤ (collect_sample prevMono readingsMono).1.disk_read_rate
    ∧ 0 ≤ (collect_sample prevMono readingsMono).1.disk_write_rate
    ∧ 0 ≤ (collect_sample prevMono readingsMono).1.net_rx_rate
    ∧ 0 ≤ (collect_sample prevMono readingsMono).1.net_tx_rate :=
  c2_rates_nonneg_of_monotone prevMono readingsMono
    (fun h => absurd h (by norm_num [readingsMono, readings0]))
    (fun pidle ptotal hp => by
      simp only [prevMono, Option.some.injEq, Prod.mk.injEq] at hp
      obtain ⟨h1, h2⟩ := hp
      subst h1; subst h2
      norm_num [readingsMono, readings0])
    (fun p hp => by
      simp only [prevMono, Option.some.injEq] at hp
      subst hp
      refine ⟨?_, ?_⟩ <;> norm_num [readingsMono, readings0, cpuDet0])
    (fun c ts hp => by
      simp only [prevMono, Option.some.injEq, Prod.mk.injEq] at hp
      obtain ⟨h1, h2⟩ := hp
      subst h1
      norm_num [readingsMono, readings0])
    (fun pd ts hp => by
      simp only [prevMono, Option.some.injEq, Prod.mk.injEq] at hp
      obtain ⟨h1, h2⟩ := hp
      subst h1
      refine ⟨?_, ?_⟩ <;> norm_num [readingsMono, readings0])
    (fun pn ts hp => by
      simp only [prevMono, Option.some.injEq, Prod.mk.injEq] at hp
      obtain ⟨h1, h2⟩ := hp
      subst h1
      refine ⟨?_, ?_⟩ <;> norm_num [readingsMono, readings0])

/-! ### C5 -/

/-- When every tick read fails, the per-tick outcomes of the loop are all
retries. -/
theorem map_outcome_replicate (ticks : List Tick)
    (h : ∀ t ∈ ticks, t.read = ReadResult.parseError) :
    ticks.map (fun t =>
        match t.read with
        | .ok _ => TickOutcome.saved
        | .parseError => TickOutcome.skippedRetry)
      = List.replicate ticks.length TickOutcome.skippedRetry := by
  induction ticks with
  | nil => rfl
  | cons t ts ih =>
      have ht := h t (by simp)
      simp [List.replicate_succ, ht, ih (fun t' h' => h t' (by simp [h']))]

/-- C5 counterexample: after 100 consecutive failed per-tick reads — far
beyond the 3-attempt bound `mark_step` and `stop_collection` use — the
collection loop has reported no retries-exhausted error to anyone (every
outcome is still `skippedRetry`, src lines 1040-1046: the failure branch
prints a warning and `continue`s unconditionally, keeping no attempt
counter) and has saved nothing; so the loop's per-tick read does not retry
a bounded number of times and then surface an explicit error. -/
theorem c5_counterexample_loop_retry_unbounded :
    loop_outcomes (List.replicate 100 tickFail0)
        = List.replicate 100 TickOutcome.skippedRetry
    ∧ (loop_go initPrev (List.replicate 100 tickFail0)).1 = []
    ∧ TickOutcome.reportedError ∉ List.replicate 100 TickOutcome.skippedRetry := by
  refine ⟨?_, ?_, by decide⟩
  · simp only [loop_outcomes]
    rw [loop_go_outcome_map]
    rw [map_outcome_replicate _
      (fun t ht => by rw [List.eq_of_mem_replicate ht]; rfl)]
    rw [List.length_replicate]
  · exact loop_go_events_nil _ _
      (fun t ht => by rw [List.eq_of_mem_replicate ht]; rfl)

/-- C5 (amended): `mark_step` and `stop_collection` retry the document read
up to 3 attempts (with a 0.05 s / 0.1 s backoff) and, when all three parse
attempts fail, return the explicit parse-failure error without writing
anything or fabricating a document; the collection loop instead handles a
failed per-tick read by dropping that tick's sample and retrying on the
next iteration, indefinitely — it performs no save and never reports a
retries-exhausted error, for any number of consecutive failures. -/
theorem c5_read_retry_policies :
    (∀ (sname : String) (now : ℚ) (reads : ℕ → ReadResult),
        reads 0 = ReadResult.parseError → reads 1 = ReadResult.parseError →
        reads 2 = ReadResult.parseError →
        mark_step_run sname now true reads = MarkResult.parseFailError
          ∧ markEvents (mark_step_run sname now true reads) = [])
    ∧ (∀ (sname : String) (now : ℚ) (reads : ℕ → ReadResult) (d : Doc),
        reads 0 = ReadResult.parseError → reads 1 = ReadResult.ok d →
        mark_step_run sname now true reads
          = MarkResult.ok [⟨SaveMode.atomic, markStepUpdate d sname now⟩]
              (markStepUpdate d sname now))
    ∧ (∀ (reads : ℕ → ReadResult) (tE tC : ℚ) (fs : FinalSnapshot),
        reads 0 = ReadResult.parseError → reads 1 = ReadResult.parseError →
        reads 2 = ReadResult.parseError →
        stop_run true reads tE tC fs = StopResult.parseFail
          ∧ stopEvents (stop_run true reads tE tC fs) = [])
    ∧ (∀ ticks : List Tick,
        (∀ t ∈ ticks, t.read = ReadResult.parseError) →
        (loop_go initPrev ticks).1 = []
          ∧ (loop_go initPrev ticks).2
              = List.replicate ticks.length TickOutcome.skippedRetry) := by
  refine ⟨?_, ?_, ?_, ?_⟩
  · intro sname now reads h0 h1 h2
    have hf : firstOkWithin reads 0 3 = none := by
      simp [firstOkWithin, h0, h1, h2]
    refine ⟨?_, ?_⟩ <;> simp [mark_step_run, hf, markEvents]
  · intro sname now reads d h0 h1
    have hf : firstOkWithin reads 0 3 = some d := by
      simp [firstOkWithin, h0, h1]
    simp [mark_step_run, hf]
  · intro reads tE tC fs h0 h1 h2
    have hf : firstOkWithin reads 0 3 = none := by
      simp [firstOkWithin, h0, h1, h2]
    refine ⟨?_, ?_⟩ <;> simp [stop_run, hf, stopEvents]
  · intro ticks h
    refine ⟨loop_go_events_nil _ _ h, ?_⟩
    rw [loop_go_outcome_map]
    exact map_outcome_replicate ticks h

/-- C5 witness: the amended theorem applied to concrete read sequences
(all failing for `mark_step`/`stop_collection`; all failing for a
three-tick loop run). -/
theorem c5_read_retry_policies_witness :
    (mark_step_run "x" 1 true (fun _ => ReadResult.parseError)
        = MarkResult.parseFailError
      ∧ markEvents (mark_step_run "x" 1 true (fun _ => ReadResult.parseError))
          = [])
    ∧ (stop_run true (fun _ => ReadResult.parseError) 5 6 fs0
        = StopResult.parseFail
      ∧ stopEvents (stop_run true (fun _ => ReadResult.parseError) 5 6 fs0)
          = [])
    ∧ ((loop_go initPrev (List.replicate 3 tickFail0)).1 = []
      ∧ (loop_go initPrev (List.replicate 3 tickFail0)).2
          = List.replicate (List.replicate 3 tickFail0).length
              TickOutcome.skippedRetry) :=
  ⟨c5_read_retry_policies.1 "x" 1 (fun _ => ReadResult.parseError)
      rfl rfl rfl,
   c5_read_retry_policies.2.2.1 (fun _ => ReadResult.parseError) 5 6 fs0
      rfl rfl rfl,
   c5_read_retry_policies.2.2.2 (List.replicate 3 tickFail0)
      (fun t ht => by rw [List.eq_of_mem_replicate ht]; rfl)⟩

/-! ### C9 -/

/-- C9: in cumulative mode (previous reading present and not the direct
sentinel, current reading cumulative, positive total delta) the second and
later samples report `cpu_percent = 100 * (1 - idle_delta / total_delta)`
(exactly, whenever that value is a whole number of hundredths, so that
`round(x, 2)` is the identity); in direct-percentage mode the current
reading is used as `cpu_percent` with no delta arithmetic (exactly, under
the same hundredths proviso). -/
theorem c9_cpu_percent_semantics :
    (∀ (prev : CollectPrev) (r : Readings) (pidle ptotal : ℚ) (z : ℤ),
        prev.prev_cpu = some (pidle, ptotal) → ptotal ≠ -1 → r.cpu.2 ≠ -1 →
        0 < r.cpu.2 - ptotal →
        100 * (1 - (r.cpu.1 - pidle) / (r.cpu.2 - ptotal)) * 100 = (z : ℚ) →
        (collect_sample prev r).1.cpu_percent
          = 100 * (1 - (r.cpu.1 - pidle) / (r.cpu.2 - ptotal)))
    ∧ (∀ (prev : CollectPrev) (r : Readings) (z : ℤ),
        r.cpu.2 = -1 → r.cpu.1 * 100 = (z : ℚ) →
        (collect_sample prev r).1.cpu_percent = r.cpu.1) := by
  constructor
  · intro prev r pidle ptotal z hp hpt hm hd hz
    rw [collect_sample_cpu_percent, if_neg hm, hp]
    dsimp only
    rw [if_neg hpt, if_pos hd]
    exact pyRound2_eq_self hz
  · intro prev r z hm hz
    rw [collect_sample_cpu_percent, if_pos hm]
    exact pyRound2_eq_self hz

/-- C9 witness: Scenario D — cumulative (100, 200) then (150, 250) gives
`cpu_percent = 0` — and a direct-mode reading of 37 is reported as 37. -/
theorem c9_cpu_percent_semantics_witness :
    (collect_sample prevScenD readingsD).1.cpu_percent = 0
    ∧ (collect_sample initPrev readingsDirect).1.cpu_percent = 37 := by
  constructor
  · have h := c9_cpu_percent_semantics.1 prevScenD readingsD 100 200 0 rfl
      (by norm_num) (by norm_num [readingsD, readings0])
      (by norm_num [readingsD, readings0])
      (by norm_num [readingsD, readings0])
    rw [h]
    norm_num [readingsD, readings0]
  · have h := c9_cpu_percent_semantics.2 initPrev readingsDirect 3700
      (by norm_num [readingsDirect, readings0])
      (by norm_num [readingsDirect, readings0])
    rw [h]
    norm_num [readingsDirect, readings0]
